import Mathlib

/-!
Verification development for the eyAgent VS Code extension (marunsct/VSEXT).

The definitions below are a shallow embedding of the TypeScript sources:
`src/providers/inlineCompletionProvider.ts` (the completion request
coordinator), `src/models/aiModels.ts` and the `ApiClient` (`callModel` and
the per-provider request builders), `src/webviews/chatViewProvider.ts`
(chat history and message sending) and the `cosineSimilarity` helper of
`src/extension.ts`.

Modelling conventions:
* The single-threaded event loop is modelled by two explicit step
  functions on a `ProviderState`: `requestStep` is the synchronous part of
  `provideInlineCompletionItems`, and `fireStep` is the body of the
  debounce timer.  A timer-body execution is treated as atomic: the
  network call is an oracle supplied in `FireEnv`, and the instant the
  call is issued and the instant it completes coincide (`FireEnv.now`).
* Promises are modelled by identity: a promise is a numeric id, and the
  pending-request map stores ids.  Resolution happens only in `fireStep`,
  exactly as `resolve` is only called inside the timer body.
* JavaScript `Map` objects are association lists with `mapGet` / `mapSet`
  / `mapErase`.
* JavaScript falsy-defaulting (`x || y`) on numbers, where both
  `undefined` and `0` fall through, is `jsOrNat` / `jsOrQ`; on strings,
  where `""` falls through, it is `jsOrStr` / `jsStrOr`.
* Times are naturals (milliseconds).  `now - last` in the rate limiter is
  truncated subtraction; as in JS, a negative difference would also be
  `< 1000`, so truncation at 0 agrees with the source's behaviour.
* `cosineSimilarity` works on JS floats; it is idealised over the reals.
-/

namespace VSEXT

/-! ### Association-list maps (JS `Map` with string keys) -/

/-- `Map.get`: the value stored for `k`, if any. -/
def mapGet {α : Type} (m : List (String × α)) (k : String) : Option α :=
  (m.find? (fun p => p.1 == k)).map (·.2)

/-- `Map.delete`: remove the entry for `k`. -/
def mapErase {α : Type} (m : List (String × α)) (k : String) : List (String × α) :=
  m.filter (fun p => p.1 != k)

/-- `Map.set`: store `v` under `k`, replacing any previous entry. -/
def mapSet {α : Type} (m : List (String × α)) (k : String) (v : α) : List (String × α) :=
  (k, v) :: mapErase m k

/-! ### Characters written by code point to match the source exactly -/

/-- The backtick character. -/
def backtick : Char := Char.ofNat 96

/-- The single-quote character. -/
def singleQuote : Char := Char.ofNat 39

/-- The double-quote character. -/
def doubleQuote : Char := Char.ofNat 34

/-! ### Counting non-overlapping two-character patterns

`(txt.match(/xy/g) || []).length` counts leftmost, non-overlapping
occurrences of the two-character pattern `xy`; `countPair` does the same
on the character list. -/

/-- Count leftmost non-overlapping occurrences of the 2-char pattern `a b`. -/
def countPair (a b : Char) : List Char → Nat
  | x :: y :: rest =>
    if x = a ∧ y = b then 1 + countPair a b rest
    else countPair a b (y :: rest)
  | _ => 0

/-! ### JS string primitives

These mirror the JavaScript string methods the sources use
(`slice(0,n)`, `substring(n)`, `trim()`, `split(c)`), implemented by
structural recursion on the character list so that concrete runs
evaluate inside proofs. -/

/-- `s.slice(0, n)`: the first `n` characters. -/
def jsTake (s : String) (n : Nat) : String :=
  ⟨s.data.take n⟩

/-- `s.substring(n)`: everything after the first `n` characters. -/
def jsDrop (s : String) (n : Nat) : String :=
  ⟨s.data.drop n⟩

/-- `s.trim()`: remove leading and trailing whitespace. -/
def jsTrim (s : String) : String :=
  ⟨((s.data.dropWhile Char.isWhitespace).reverse.dropWhile Char.isWhitespace).reverse⟩

/-- One-character split, as a list-of-lists of characters. -/
def splitChar (c : Char) : List Char → List (List Char)
  | [] => [[]]
  | x :: rest =>
    match splitChar c rest with
    | [] => [[]]
    | h :: t => if x == c then [] :: h :: t else (x :: h) :: t

/-- `s.split(c)`: JS single-character split. -/
def jsSplit (c : Char) (s : String) : List String :=
  (splitChar c s.data).map String.mk

/-! ### The document model

A `TextDocument` is its URI, its language id, and its lines.  A
`Position` is a (line, character) pair, as in VS Code. -/

structure Position where
  line : Nat
  character : Nat
  deriving DecidableEq, Repr

structure TextDocument where
  uriStr : String
  languageId : String
  fileLines : List String
  deriving DecidableEq, Repr

/-- `document.lineAt(i).text` (out-of-range reads give `""`; the source
only reads indices below `lineCount`). -/
def lineAt (d : TextDocument) (i : Nat) : String :=
  d.fileLines.getD i ""

/-- `document.getText(new Range(new Position(0,0), position))`: the full
lines before the cursor line plus the cursor line up to the cursor
column, joined by newlines. -/
def textUpTo (d : TextDocument) (p : Position) : String :=
  String.intercalate "\n" (d.fileLines.take p.line ++ [jsTake (lineAt d p.line) p.character])

/-- The cache / pending-request key:
`` `${document.uri.toString()}|${position.line}:${position.character}` ``. -/
def completionKey (d : TextDocument) (p : Position) : String :=
  d.uriStr ++ "|" ++ toString p.line ++ ":" ++ toString p.character

/-! ### Comment and string heuristics (`isInComment`, `isInString`) -/

/-- `isInComment`: count `/*` vs `*/` occurrences in the buffer from the
start of the document to the cursor; the cursor is taken to be in a
comment when there are strictly more openers than closers. -/
def isInComment (d : TextDocument) (p : Position) : Bool :=
  let txt := (textUpTo d p).data
  decide (countPair '*' '/' txt < countPair '/' '*' txt)

/-- `isInString`: on the current line up to the cursor, count single
quotes, double quotes and backticks; any odd parity means "in a string". -/
def isInString (d : TextDocument) (p : Position) : Bool :=
  let line := (lineAt d p.line).data.take p.character
  decide (line.count singleQuote % 2 = 1) ||
  decide (line.count doubleQuote % 2 = 1) ||
  decide (line.count backtick % 2 = 1)

/-- `shouldSkipCompletion`: an explicit completion menu is open
(`selectedCompletionInfo`), the current line is blank, or the cursor is
inside a comment or string. -/
def shouldSkipCompletion (d : TextDocument) (p : Position) (selInfo : Bool) : Bool :=
  selInfo || (jsTrim (lineAt d p.line) == "") || isInComment d p || isInString d p

/-! ### Language configuration and smart context

Only the fields the coordinator's control flow reads are modelled:
`contextLines` bounds the prefix window, and `prefixCode` / `currentLine`
feed the minimum-content gate.  The `importantSections` declarations and
the assembled `completePrompt` string are consumed only by the network
oracle and are not modelled (no claim depends on their content). -/

/-- `languageConfig[language].contextLines`, with the `default` fallback. -/
def contextLinesFor (language : String) : Nat :=
  if language = "typescript" then 50
  else if language = "javascript" then 50
  else if language = "python" then 40
  else if language = "java" then 60
  else 30

structure CompletionContext where
  prefixCode : String
  currentLine : String
  deriving DecidableEq, Repr

/-- `getSmartCompletionContext`: the lines from
`max(0, line - contextLines)` to the cursor line, the last one truncated
at the cursor column; `prefixCode` joins them, `currentLine` is the last. -/
def getSmartCompletionContext (d : TextDocument) (p : Position) (language : String) :
    CompletionContext :=
  let start := p.line - contextLinesFor language
  let current := jsTake (lineAt d p.line) p.character
  let lines := (List.range' start (p.line - start)).map (lineAt d) ++ [current]
  { prefixCode := String.intercalate "\n" lines, currentLine := current }

/-! ### Post-processing (`postProcessCompletion`)

`text.replace(/```[\s\S]*?```/g, '')` removes every lazily-matched
code-fence block — the two ``` fences and everything between them.  A
fence with no later closing fence matches nothing and is left in place.
`stripFencesFuel` scans left to right; the fuel argument (initialised to
the list length, which every recursive call strictly decreases below)
keeps the recursion structural so that concrete inputs evaluate by
`decide`/`rfl`. -/

/-- Find the first occurrence of three consecutive backticks; return the
characters that follow it, or `none` when there is none. -/
def dropThroughFence : List Char → Option (List Char)
  | a :: b :: c :: rest =>
    if a == backtick && b == backtick && c == backtick then some rest
    else dropThroughFence (b :: c :: rest)
  | _ => none

/-- One left-to-right pass of `replace(/```[\s\S]*?```/g, '')`. -/
def stripFencesFuel : Nat → List Char → List Char
  | 0, l => l
  | _ + 1, [] => []
  | fuel + 1, a :: b :: c :: rest =>
    if a == backtick && b == backtick && c == backtick then
      match dropThroughFence rest with
      | some rem => stripFencesFuel fuel rem
      | none => a :: b :: c :: rest
    else a :: stripFencesFuel fuel (b :: c :: rest)
  | fuel + 1, a :: rest => a :: stripFencesFuel fuel rest

/-- `text.replace(/```[\s\S]*?```/g, '')` on strings. -/
def stripFences (s : String) : String :=
  ⟨stripFencesFuel s.data.length s.data⟩

/-- The leading-whitespace capture `currentLine.match(/^(\s*)/)?.[1]`. -/
def leadingWhitespace (s : String) : String :=
  ⟨s.data.takeWhile Char.isWhitespace⟩

/-- The bracket/brace/paren class `[{\[(]` of the duplicate-bracket trim. -/
def openBracketChars : List Char := [Char.ofNat 123, Char.ofNat 91, Char.ofNat 40]

/-- `/[{\[(]$/.test(s)`: does `s` end with an opening bracket? -/
def endsWithOpenBracket (s : String) : Bool :=
  match s.data.getLast? with
  | some c => openBracketChars.contains c
  | none => false

/-- `/^[{\[(]/.test(s)`: does `s` start with an opening bracket? -/
def startsWithOpenBracket (s : String) : Bool :=
  match s.data.head? with
  | some c => openBracketChars.contains c
  | none => false

/-- `postProcessCompletion(text, language, currentLine)`: remove fenced
blocks and trim; for multi-line text prepend the current line's leading
whitespace to every line after the first; then, if the trimmed current
line ends with an opening bracket and the trimmed text starts with one,
drop the text's first character. -/
def postProcessCompletion (text0 : String) (language : String) (currentLine : String) : String :=
  let text1 := jsTrim (stripFences text0)
  let indent := leadingWhitespace currentLine
  let text2 :=
    if text1.data.contains '\n' then
      String.intercalate "\n"
        ((jsSplit '\n' text1).mapIdx (fun i ln => if i = 0 then ln else indent ++ ln))
    else text1
  if endsWithOpenBracket (jsTrim currentLine) && startsWithOpenBracket (jsTrim text2) then
    jsDrop (jsTrim text2) 1
  else text2

/-! ### `aiModels.ts`: the static model descriptor table -/

structure AIModel where
  name : String
  id : String
  provider : String
  maxTokens : Nat
  description : String
  secretKeyName : String
  defaultEndpoint : String
  deriving DecidableEq, Repr

def SUPPORTED_MODELS : List AIModel :=
  [ { name := "GPT-4", id := "gpt-4", provider := "OpenAI", maxTokens := 4000,
      description := "OpenAI GPT-4 - Advanced reasoning capabilities",
      secretKeyName := "openaiApiKey",
      defaultEndpoint := "https://api.openai.com/v1/chat/completions" },
    { name := "GPT-3.5 Turbo", id := "gpt-3.5-turbo", provider := "OpenAI", maxTokens := 4000,
      description := "OpenAI GPT-3.5 Turbo - Fast and cost-effective",
      secretKeyName := "openaiApiKey",
      defaultEndpoint := "https://api.openai.com/v1/chat/completions" },
    { name := "Claude 3 Opus", id := "claude-3-opus", provider := "Anthropic", maxTokens := 4000,
      description := "Anthropic Claude 3 Opus - Most capable Claude model",
      secretKeyName := "anthropicApiKey",
      defaultEndpoint := "https://api.anthropic.com/v1/messages" },
    { name := "Claude 3 Sonnet", id := "claude-3-sonnet", provider := "Anthropic", maxTokens := 4000,
      description := "Anthropic Claude 3 Sonnet - Balanced performance",
      secretKeyName := "anthropicApiKey",
      defaultEndpoint := "https://api.anthropic.com/v1/messages" },
    { name := "Gemini Pro", id := "gemini-pro", provider := "Google", maxTokens := 4000,
      description := "Google Gemini Pro - Google's advanced AI model",
      secretKeyName := "googleApiKey",
      defaultEndpoint := "https://generativelanguage.googleapis.com/v1beta/models/gemini-pro:generateContent" },
    { name := "Gemini 1.5 Pro", id := "gemini-1.5-pro", provider := "Google", maxTokens := 8000,
      description := "Google Gemini 1.5 Pro - Latest Google AI model",
      secretKeyName := "googleApiKey",
      defaultEndpoint := "https://generativelanguage.googleapis.com/v1beta/models/gemini-1.5-pro:generateContent" },
    { name := "Custom Model", id := "custom", provider := "Custom", maxTokens := 4000,
      description := "Custom API endpoint for other models",
      secretKeyName := "customApiKey",
      defaultEndpoint := "" } ]

/-- `getModelById`: `SUPPORTED_MODELS.find(model => model.id === id)`. -/
def getModelById (id : String) : Option AIModel :=
  SUPPORTED_MODELS.find? (fun model => model.id == id)

/-- Token-usage counters of an `ApiResponse`. -/
structure Usage where
  promptTokens : Option Nat := none
  completionTokens : Option Nat := none
  totalTokens : Option Nat := none
  deriving DecidableEq, Repr

/-- The normalized `ApiResponse` shape of `aiModels.ts`. -/
structure ApiResponse where
  text : String
  model : String
  usage : Option Usage := none
  error : Option String := none
  deriving DecidableEq, Repr

/-! ### The completion request coordinator as a state machine

`ProviderState` collects the mutable fields of `InlineCompletionProvider`:
`enabled`, `lastCompletionTime`, `pendingCompletions`, `completionCache`
and the single `debounceTimeout` slot (`scheduled`).  Promises are
numbered by `nextPromiseId`. -/

structure InlineCompletionItem where
  insertText : String
  rangeStart : Position
  rangeEnd : Position
  deriving DecidableEq, Repr

/-- `vscode.InlineCompletionList`, reduced to its item list. -/
abbrev InlineCompletionList := List InlineCompletionItem

structure CacheEntry where
  expiresAt : Nat
  items : InlineCompletionList
  deriving DecidableEq, Repr

/-- The argument package captured by the `setTimeout` closure. -/
structure ScheduledCall where
  key : String
  promiseId : Nat
  doc : TextDocument
  pos : Position
  deriving DecidableEq, Repr

structure ProviderState where
  enabled : Bool
  lastCompletionTime : Nat
  pending : List (String × Nat)
  cache : List (String × CacheEntry)
  scheduled : Option ScheduledCall
  nextPromiseId : Nat
  deriving DecidableEq, Repr

/-- What a call to `provideInlineCompletionItems` hands back to the
editor: either an already-resolved list, or a (possibly shared) promise. -/
inductive RequestOutcome where
  | immediate (items : InlineCompletionList)
  | promise (pid : Nat)
  deriving DecidableEq, Repr

/-- The cache lookup: a hit only when the entry exists and
`cached.expiresAt > Date.now()`. -/
def cacheHit (cache : List (String × CacheEntry)) (key : String) (now : Nat) :
    Option InlineCompletionList :=
  match mapGet cache key with
  | some e => if now < e.expiresAt then some e.items else none
  | none => none

/-- The synchronous part of `provideInlineCompletionItems`: the enabled
check, the skip conditions, the cache lookup, the pending-request
deduplication, and — failing all of those — clearing the previous
debounce timer and scheduling a new timer for a fresh promise. -/
def requestStep (s : ProviderState) (doc : TextDocument) (pos : Position)
    (selInfo : Bool) (now : Nat) : RequestOutcome × ProviderState :=
  if s.enabled then
    if shouldSkipCompletion doc pos selInfo then (.immediate [], s)
    else
      let key := completionKey doc pos
      match cacheHit s.cache key now with
      | some items => (.immediate items, s)
      | none =>
        match mapGet s.pending key with
        | some pid => (.promise pid, s)
        | none =>
          let pid := s.nextPromiseId
          (.promise pid,
            { s with
              pending := mapSet s.pending key pid,
              scheduled := some { key := key, promiseId := pid, doc := doc, pos := pos },
              nextPromiseId := pid + 1 })
  else (.immediate [], s)

/-- The oracle inputs of one debounce-timer execution: the clock at the
instant the timer body runs, the cancellation token's state, and the
outcome of `apiClient.callModel` (`Except.error` models a thrown
exception, which the body's `catch` turns into an empty resolution). -/
structure FireEnv where
  now : Nat
  cancelRequested : Bool
  response : Except String ApiResponse

/-- What one timer execution resolved its promise with, and whether it
reached the network. -/
structure FireResult where
  value : InlineCompletionList
  networkCalled : Bool
  deriving DecidableEq, Repr

/-- The debounce-timer body of `provideInlineCompletionItems`: rate
limit, `lastCompletionTime` update, minimum-content gate, cancellation
check, the network call, post-processing and caching of a successful
result; every branch deletes the pending-map entry (the early branches
delete it explicitly, and the `finally` clause deletes it again). -/
def fireStep (s : ProviderState) (c : ScheduledCall) (fe : FireEnv) :
    FireResult × ProviderState :=
  if fe.now - s.lastCompletionTime < 1000 then
    ({ value := [], networkCalled := false },
      { s with pending := mapErase s.pending c.key, scheduled := none })
  else
    let s1 := { s with lastCompletionTime := fe.now, scheduled := none }
    let ctx := getSmartCompletionContext c.doc c.pos c.doc.languageId
    if ctx.currentLine.length < 10 ∧ ctx.prefixCode.length < 20 then
      ({ value := [], networkCalled := false },
        { s1 with pending := mapErase s.pending c.key })
    else if fe.cancelRequested then
      ({ value := [], networkCalled := false },
        { s1 with pending := mapErase s.pending c.key })
    else
      match fe.response with
      | .error _ =>
        ({ value := [], networkCalled := true },
          { s1 with pending := mapErase s.pending c.key })
      | .ok r =>
        if r.error.isSome ∨ r.text = "" then
          ({ value := [], networkCalled := true },
            { s1 with pending := mapErase s.pending c.key })
        else
          let text := postProcessCompletion (jsTrim r.text) c.doc.languageId ctx.currentLine
          let list : InlineCompletionList :=
            [{ insertText := text, rangeStart := c.pos, rangeEnd := c.pos }]
          ({ value := list, networkCalled := true },
            { s1 with
              pending := mapErase s.pending c.key,
              cache := mapSet s.cache c.key { expiresAt := fe.now + 30000, items := list } })

/-! ### `ApiClient.callModel` and the provider-specific request builders

JS falsy defaulting: `x || y` falls through on `undefined` and on `0`
(for numbers) or `""` (for strings). -/

/-- `a || b` on an optional number (`0` and `undefined` are falsy). -/
def jsOrNat (x : Option Nat) (y : Nat) : Nat :=
  match x with
  | none => y
  | some v => if v = 0 then y else v

/-- `a || b` on an optional rational (`0` and `undefined` are falsy). -/
def jsOrQ (x : Option ℚ) (y : ℚ) : ℚ :=
  match x with
  | none => y
  | some v => if v = 0 then y else v

/-- `a || b` on an optional string (`""` and `undefined` are falsy). -/
def jsOrStr (x : Option String) (y : String) : String :=
  match x with
  | none => y
  | some v => if v = "" then y else v

/-- `a || b` on two strings (`""` is falsy). -/
def jsStrOr (x y : String) : String :=
  if x = "" then y else x

/-- A `{role, content}` chat message. -/
structure ChatMessage where
  role : String
  content : String
  deriving DecidableEq, Repr

/-- The `options` argument of `callModel`. -/
structure CallOptions where
  systemPrompt : Option String := none
  maxTokens : Option Nat := none
  temperature : Option ℚ := none
  endpoint : Option String := none
  messages : Option (List ChatMessage) := none
  deriving DecidableEq, Repr

/-- The `ApiRequest` record built inside `callModel` (its optional
`maxTokens` / `temperature` / `endpoint` fields are always filled there,
so they are plain fields here). -/
structure ApiRequest where
  prompt : String
  systemPrompt : Option String
  maxTokens : Nat
  temperature : ℚ
  apiKey : String
  endpoint : String
  messages : Option (List ChatMessage)
  deriving DecidableEq, Repr

/-- The OpenAI wire body (`model`, `messages`, `max_tokens`, `temperature`). -/
structure OpenAIBody where
  model : String
  messages : List ChatMessage
  max_tokens : Nat
  temperature : ℚ
  deriving DecidableEq, Repr

/-- The Anthropic wire body (`model`, `messages`, `system`, `max_tokens`). -/
structure AnthropicBody where
  model : String
  messages : List ChatMessage
  system : Option String
  max_tokens : Nat
  deriving DecidableEq, Repr

/-- The Google wire body: `contents` (messages with `system` mapped to
`user`), `maxOutputTokens` and `temperature`. -/
structure GoogleBody where
  contents : List ChatMessage
  maxOutputTokens : Nat
  temperature : ℚ
  deriving DecidableEq, Repr

/-- The custom-provider wire body (`prompt`, `max_tokens`, `temperature`). -/
structure CustomBody where
  prompt : String
  max_tokens : Nat
  temperature : ℚ
  deriving DecidableEq, Repr

/-- One outbound HTTP POST, with its endpoint and body. -/
inductive HttpCall where
  | openai (endpoint : String) (body : OpenAIBody)
  | anthropic (endpoint : String) (body : AnthropicBody)
  | google (url : String) (body : GoogleBody)
  | custom (endpoint : String) (body : CustomBody)
  deriving DecidableEq, Repr

/-- The fields `callOpenAI` extracts from the response JSON
(`data.choices?.[0]?.message?.content`, `data.usage?.…`). -/
structure OpenAIData where
  content : Option String := none
  prompt_tokens : Option Nat := none
  completion_tokens : Option Nat := none
  total_tokens : Option Nat := none
  deriving DecidableEq, Repr

/-- The fields `callAnthropic` extracts (`data.content?.[0]?.text`,
`data.usage?.input_tokens`, `data.usage?.output_tokens`). -/
structure AnthropicData where
  contentText : Option String := none
  input_tokens : Option Nat := none
  output_tokens : Option Nat := none
  deriving DecidableEq, Repr

/-- The fields `callGoogle` extracts
(`data.candidates?.[0]?.content?.parts?.[0]?.text`,
`data.usageMetadata?.totalTokenCount`). -/
structure GoogleData where
  candidateText : Option String := none
  totalTokenCount : Option Nat := none
  deriving DecidableEq, Repr

/-- The fields `callCustomModel` extracts
(`data.choices?.[0]?.message?.content`, `data.text`, `data.completion`,
`data.usage`). -/
structure CustomData where
  choiceContent : Option String := none
  text : Option String := none
  completion : Option String := none
  usage : Option Usage := none
  deriving DecidableEq, Repr

/-- The environment a `callModel` invocation runs in: the secret store,
the two configuration reads, and one network oracle per provider.  An
oracle's `Except.error` models both a network exception and the `throw`
on a non-2xx HTTP status (both reach the same `catch` in `callModel`). -/
structure ApiEnv where
  secrets : String → Option String
  customModelEndpoint : Option String
  configMaxTokens : Option Nat
  configTemperature : Option ℚ
  openaiHttp : String → OpenAIBody → Except String OpenAIData
  anthropicHttp : String → AnthropicBody → Except String AnthropicData
  googleHttp : String → GoogleBody → Except String GoogleData
  customHttp : String → CustomBody → Except String CustomData

/-- `callOpenAI`: defaulted messages, one fetch, first-choice text
(`content?.trim() || ''`) and usage counters. -/
def callOpenAI (env : ApiEnv) (request : ApiRequest) (model : AIModel) :
    Except String ApiResponse × List HttpCall :=
  let messages := request.messages.getD
    ((match request.systemPrompt with
      | some sp => [{ role := "system", content := sp }]
      | none => []) ++ [{ role := "user", content := request.prompt }])
  let endpoint := jsStrOr request.endpoint model.defaultEndpoint
  let body : OpenAIBody :=
    { model := model.id, messages := messages,
      max_tokens := request.maxTokens, temperature := request.temperature }
  match env.openaiHttp endpoint body with
  | .error e => (.error e, [.openai endpoint body])
  | .ok data =>
    (.ok { text := (data.content.map String.trim).getD "", model := model.id,
           usage := some { promptTokens := data.prompt_tokens,
                           completionTokens := data.completion_tokens,
                           totalTokens := data.total_tokens },
           error := none },
     [.openai endpoint body])

/-- `callAnthropic`: defaulted messages, `system` carried as its own
field, one fetch, `content?.[0]?.text || ''`.  (The source adds
`input_tokens + output_tokens` for `totalTokens`; when either is absent
the JS sum is `NaN`, idealised here as `none`.) -/
def callAnthropic (env : ApiEnv) (request : ApiRequest) (model : AIModel) :
    Except String ApiResponse × List HttpCall :=
  let messages := request.messages.getD [{ role := "user", content := request.prompt }]
  let endpoint := jsStrOr request.endpoint model.defaultEndpoint
  let body : AnthropicBody :=
    { model := model.id, messages := messages,
      system := request.systemPrompt, max_tokens := request.maxTokens }
  match env.anthropicHttp endpoint body with
  | .error e => (.error e, [.anthropic endpoint body])
  | .ok data =>
    (.ok { text := data.contentText.getD "", model := model.id,
           usage := some { promptTokens := data.input_tokens,
                           completionTokens := data.output_tokens,
                           totalTokens :=
                             match data.input_tokens, data.output_tokens with
                             | some i, some o => some (i + o)
                             | _, _ => none },
           error := none },
     [.anthropic endpoint body])

/-- `callGoogle`: the key is appended to the URL, `system` roles are
mapped to `user`, one fetch, first candidate's text. -/
def callGoogle (env : ApiEnv) (request : ApiRequest) (model : AIModel) :
    Except String ApiResponse × List HttpCall :=
  let apiEndpoint := jsStrOr request.endpoint model.defaultEndpoint
  let apiUrl := apiEndpoint ++ "?key=" ++ request.apiKey
  let messages := request.messages.getD [{ role := "user", content := request.prompt }]
  let contents := messages.map (fun msg =>
    { role := if msg.role = "system" then "user" else msg.role, content := msg.content })
  let body : GoogleBody :=
    { contents := contents, maxOutputTokens := request.maxTokens,
      temperature := request.temperature }
  match env.googleHttp apiUrl body with
  | .error e => (.error e, [.google apiUrl body])
  | .ok data =>
    (.ok { text := data.candidateText.getD "", model := model.id,
           usage := some { totalTokens := data.totalTokenCount },
           error := none },
     [.google apiUrl body])

/-- `callCustomModel`: throws (without any fetch) when no endpoint is
configured; otherwise one fetch and an OpenAI-style extraction
(`choices?.[0]?.message?.content || data.text || data.completion || ''`). -/
def callCustomModel (env : ApiEnv) (request : ApiRequest) :
    Except String ApiResponse × List HttpCall :=
  if request.endpoint = "" then
    (.error "No endpoint specified for custom model", [])
  else
    let body : CustomBody :=
      { prompt := request.prompt, max_tokens := request.maxTokens,
        temperature := request.temperature }
    match env.customHttp request.endpoint body with
    | .error e => (.error e, [.custom request.endpoint body])
    | .ok data =>
      (.ok { text := jsStrOr (data.choiceContent.getD "")
                       (jsStrOr (data.text.getD "") (data.completion.getD "")),
             model := "custom",
             usage := some (data.usage.getD {}),
             error := none },
       [.custom request.endpoint body])

/-- The `ApiRequest` built inside `callModel` for a resolved model and
retrieved key: endpoint resolution (per-call override, else the custom
endpoint setting for the `custom` model, else the descriptor default) and
`||`-defaulting of `maxTokens` and `temperature`. -/
def mkApiRequest (env : ApiEnv) (model : AIModel) (prompt : String)
    (options : CallOptions) (apiKey : String) : ApiRequest :=
  let endpoint0 := jsOrStr options.endpoint model.defaultEndpoint
  let endpoint :=
    if model.id = "custom" then
      match env.customModelEndpoint with
      | some c => if c = "" then endpoint0 else c
      | none => endpoint0
    else endpoint0
  { prompt := prompt,
    systemPrompt := options.systemPrompt,
    maxTokens := jsOrNat options.maxTokens (jsOrNat env.configMaxTokens 1024),
    temperature := jsOrQ options.temperature (jsOrQ env.configTemperature 0.7),
    apiKey := apiKey,
    endpoint := endpoint,
    messages := options.messages }

/-- The provider dispatch inside `callModel`'s `try` block.  An unknown
provider string returns an error-shaped `ApiResponse` (not a throw). -/
def dispatchProvider (env : ApiEnv) (request : ApiRequest) (model : AIModel) :
    Except String ApiResponse × List HttpCall :=
  if model.provider = "OpenAI" then callOpenAI env request model
  else if model.provider = "Anthropic" then callAnthropic env request model
  else if model.provider = "Google" then callGoogle env request model
  else if model.provider = "Custom" then callCustomModel env request
  else
    (.ok { text := "Error: Unsupported model provider " ++ model.provider,
           model := model.id, usage := none,
           error := some ("Unsupported model provider " ++ model.provider) },
     [])

/-- `ApiClient.callModel`: a total function — every failure path resolves
into an `ApiResponse` whose `error` field is set, never a thrown
exception.  The second component lists the HTTP calls issued. -/
def callModel (env : ApiEnv) (modelId : String) (prompt : String)
    (options : CallOptions) : ApiResponse × List HttpCall :=
  match getModelById modelId with
  | none =>
    ({ text := "Error: Invalid model ID", model := modelId,
       usage := none, error := some "Invalid model ID" }, [])
  | some model =>
    match env.secrets model.secretKeyName with
    | none =>
      ({ text := "Error: No API key found for " ++ model.name ++
                 ". Please set your API key in the extension settings.",
         model := model.id, usage := none, error := some "No API key found" }, [])
    | some apiKey =>
      let request := mkApiRequest env model prompt options apiKey
      match dispatchProvider env request model with
      | (.ok r, calls) => (r, calls)
      | (.error e, calls) =>
        ({ text := "Error: " ++ e, model := model.id,
           usage := none, error := some e }, calls)

/-! ### `ChatViewProvider`: history and `_sendMessage` -/

/-- `_clearChat` / `clearHistory`: `this._chatHistory = []`. -/
def clearChat (_history : List ChatMessage) : List ChatMessage := []

/-- The base system prompt of `_sendMessage`. -/
def chatBaseSystemPrompt : String :=
  "You are an AI coding assistant helping with programming tasks."

/-- The pure slice of `_sendMessage` up to the `callModel` invocation:
push the user message, resolve the model id
(`config.get('defaultModel') || 'gpt-4'`), extend the system prompt with
workspace context only for the first message
(`this._chatHistory.length === 1`), and assemble the `callModel`
arguments.  Returns (history after the push, modelId, options). -/
def sendMessageCall (history : List ChatMessage) (message : String)
    (cfgDefaultModel : Option String) (workspaceContext : Option String) :
    List ChatMessage × String × CallOptions :=
  let hist1 := history ++ [{ role := "user", content := message }]
  let modelId := jsOrStr cfgDefaultModel "gpt-4"
  let systemPrompt :=
    if hist1.length = 1 then
      match workspaceContext with
      | some c =>
        if c = "" then chatBaseSystemPrompt
        else chatBaseSystemPrompt ++
          " Here is some context from the current workspace:\n\n" ++ c
      | none => chatBaseSystemPrompt
    else chatBaseSystemPrompt
  (hist1, modelId,
    { systemPrompt := some systemPrompt, messages := some hist1, maxTokens := some 1000 })

/-- Modelled from the spec: "a subsequent chat call with no prior turns
sends only the new user message plus system prompt" — the message list
the claim says the first post-clear API request contains. -/
def specFirstChatMessages (systemPrompt message : String) : List ChatMessage :=
  [{ role := "system", content := systemPrompt },
   { role := "user", content := message }]

/-! ### `cosineSimilarity` (`src/extension.ts`)

The single loop accumulates `dot`, `normA` and `normB` over the indices
of `a`; the three accumulators are written as three index sums.  Indices
past a list's end contribute `0` here (the source would read `undefined`
and poison the sum with `NaN`; every claim concerns equal-length
vectors).  JS floats are idealised as reals. -/

/-- The `dot` accumulator: `Σ_{i < a.length} a[i] * b[i]`. -/
def dotProduct (a b : List ℝ) : ℝ :=
  ∑ i in Finset.range a.length, a.getD i 0 * b.getD i 0

/-- The `normA` accumulator: `Σ_{i < a.length} a[i] * a[i]`. -/
def normSqFirst (a : List ℝ) : ℝ :=
  ∑ i in Finset.range a.length, a.getD i 0 * a.getD i 0

/-- The `normB` accumulator: `Σ_{i < a.length} b[i] * b[i]`. -/
def normSqSecond (a b : List ℝ) : ℝ :=
  ∑ i in Finset.range a.length, b.getD i 0 * b.getD i 0

/-- The divisor `Math.sqrt(normA) * Math.sqrt(normB)`; the function
divides by it unconditionally — there is no zero-vector guard. -/
noncomputable def cosineDenominator (a b : List ℝ) : ℝ :=
  Real.sqrt (normSqFirst a) * Real.sqrt (normSqSecond a b)

/-- `cosineSimilarity`: `dot / (Math.sqrt(normA) * Math.sqrt(normB))`. -/
noncomputable def cosineSimilarity (a b : List ℝ) : ℝ :=
  dotProduct a b / cosineDenominator a b

/-! ### Spec-described post-processing, for the refinement comparison -/

/-- Modelled from the spec: "strips markdown code-fence wrapping from the
raw model text" — remove the ``` fence markers themselves, keeping the
wrapped content. -/
def removeFenceMarkers : List Char → List Char
  | a :: b :: c :: rest =>
    if a == backtick && b == backtick && c == backtick then removeFenceMarkers rest
    else a :: removeFenceMarkers (b :: c :: rest)
  | l => l

/-- Modelled from the spec: "re-indents every line after the first to the
current line's leading whitespace" — replace the line's own leading
whitespace by `indent`. -/
def setIndentTo (indent ln : String) : String :=
  indent ++ ⟨ln.data.dropWhile Char.isWhitespace⟩

/-- Modelled from the spec: the post-processing as the claim describes
it — fence markers stripped (content kept), continuation lines
re-indented *to* the current line's leading whitespace, and the
duplicate-bracket trim. -/
def postProcessCompletionSpecDescribed (text0 : String) (language : String)
    (currentLine : String) : String :=
  let text1 := jsTrim (⟨removeFenceMarkers text0.data⟩ : String)
  let indent := leadingWhitespace currentLine
  let text2 :=
    if text1.data.contains '\n' then
      String.intercalate "\n"
        ((jsSplit '\n' text1).mapIdx (fun i ln => if i = 0 then ln else setIndentTo indent ln))
    else text1
  if endsWithOpenBracket (jsTrim currentLine) && startsWithOpenBracket (jsTrim text2) then
    jsDrop (jsTrim text2) 1
  else text2

/-! ### Concrete fixtures used by witnesses and counterexamples -/

/-- An initial provider state: enabled, empty maps, nothing scheduled. -/
def initState : ProviderState :=
  { enabled := true, lastCompletionTime := 0, pending := [], cache := [],
    scheduled := none, nextPromiseId := 0 }

/-- A one-line TypeScript document whose line passes the content gate. -/
def docFn : TextDocument :=
  { uriStr := "file:///a.ts", languageId := "typescript",
    fileLines := ["function foo() \x7b"] }

/-- The cursor at the end of `docFn`'s single line. -/
def posFn : Position := { line := 0, character := 16 }

/-- A document whose buffer up to line 1, column 3 contains one
unmatched block-comment opener. -/
def docComment : TextDocument :=
  { uriStr := "file:///c.ts", languageId := "typescript", fileLines := ["/* hello", "world"] }

/-- A cursor inside `docComment`'s unterminated block comment. -/
def posComment : Position := { line := 1, character := 3 }

/-- The scheduled timer call for `docFn`/`posFn`. -/
def schedFn : ScheduledCall :=
  { key := completionKey docFn posFn, promiseId := 0, doc := docFn, pos := posFn }

/-- A provider state in which `schedFn`'s promise is pending and the last
rate-gate pass happened at t = 1000ms. -/
def stateFn : ProviderState :=
  { enabled := true, lastCompletionTime := 1000,
    pending := [(completionKey docFn posFn, 0)], cache := [],
    scheduled := some schedFn, nextPromiseId := 1 }

/-- A timer execution at t = 2000ms with a successful model response. -/
def fireOk : FireEnv :=
  { now := 2000, cancelRequested := false,
    response := .ok { text := "return 1;", model := "gpt-4" } }

/-- A timer execution at t = 1500ms (500ms after the last gate pass). -/
def fireSoon : FireEnv :=
  { now := 1500, cancelRequested := false,
    response := .ok { text := "return 1;", model := "gpt-4" } }

/-- A concrete `ApiEnv`: only the OpenAI key is configured, and the
OpenAI oracle throws. -/
def apiEnvThrow : ApiEnv :=
  { secrets := fun k => if k = "openaiApiKey" then some "sk-test" else none,
    customModelEndpoint := none, configMaxTokens := none, configTemperature := none,
    openaiHttp := fun _ _ => .error "boom",
    anthropicHttp := fun _ _ => .error "unused",
    googleHttp := fun _ _ => .error "unused",
    customHttp := fun _ _ => .error "unused" }

/-- A concrete `ApiEnv`: only the OpenAI key is configured, and the
OpenAI oracle answers successfully. -/
def apiEnvOk : ApiEnv :=
  { secrets := fun k => if k = "openaiApiKey" then some "sk-chat" else none,
    customModelEndpoint := none, configMaxTokens := none, configTemperature := none,
    openaiHttp := fun _ _ => .ok { content := some "hello there" },
    anthropicHttp := fun _ _ => .error "unused",
    googleHttp := fun _ _ => .error "unused",
    customHttp := fun _ _ => .error "unused" }

/-!
## Theorems

First the generic helper lemmas, then one theorem (plus witness or
counterexample) per specification claim.
-/

theorem mapGet_mapSet_self {α : Type} (m : List (String × α)) (k : String) (v : α) :
    mapGet (mapSet m k v) k = some v := by
  simp [mapGet, mapSet, List.find?]

theorem mapGet_cons {α : Type} (a : String × α) (t : List (String × α)) (k' : String) :
    mapGet (a :: t) k' = if a.1 = k' then some a.2 else mapGet t k' := by
  by_cases h : a.1 = k'
  · simp [mapGet, List.find?, h]
  · have hb : (a.1 == k') = false := beq_eq_false_iff_ne.mpr h
    simp [mapGet, List.find?, hb, h]

theorem mapErase_cons {α : Type} (a : String × α) (t : List (String × α)) (k : String) :
    mapErase (a :: t) k = if a.1 = k then mapErase t k else a :: mapErase t k := by
  by_cases h : a.1 = k
  · have hb : (a.1 != k) = false := by simp [bne, h]
    simp [mapErase, List.filter, hb, h]
  · have hb : (a.1 != k) = true := bne_iff_ne.mpr h
    simp [mapErase, List.filter, hb, h]

theorem mapGet_mapErase_self {α : Type} (m : List (String × α)) (k : String) :
    mapGet (mapErase m k) k = none := by
  induction m with
  | nil => rfl
  | cons a t ih =>
    rw [mapErase_cons]
    by_cases h : a.1 = k
    · rw [if_pos h]; exact ih
    · rw [if_neg h, mapGet_cons, if_neg h]; exact ih

theorem mapGet_mapErase_ne {α : Type} (m : List (String × α)) (k k' : String) (h : k' ≠ k) :
    mapGet (mapErase m k) k' = mapGet m k' := by
  induction m with
  | nil => rfl
  | cons a t ih =>
    rw [mapErase_cons, mapGet_cons]
    by_cases ha : a.1 = k
    · have hk' : ¬a.1 = k' := fun hc => h (by rw [← hc, ha])
      rw [if_pos ha, if_neg hk']
      exact ih
    · rw [if_neg ha, mapGet_cons]
      by_cases hk' : a.1 = k'
      · simp [hk']
      · simp [hk', ih]

theorem stripFencesFuel_nil (fuel : Nat) : stripFencesFuel fuel [] = [] := by
  cases fuel <;> rfl

theorem stripFencesFuel_cons_ne (fuel : Nat) (x : Char) (l : List Char)
    (hx : ¬x = backtick) :
    stripFencesFuel (fuel + 1) (x :: l) = x :: stripFencesFuel fuel l := by
  have hb : (x == backtick) = false := beq_eq_false_iff_ne.mpr hx
  rcases l with _ | ⟨y, _ | ⟨z, t⟩⟩
  · rfl
  · rfl
  · simp [stripFencesFuel, hb]

theorem dropThroughFence_cons_ne (x : Char) (l : List Char) (hx : ¬x = backtick)
    (hl : 2 ≤ l.length) :
    dropThroughFence (x :: l) = dropThroughFence l := by
  have hb : (x == backtick) = false := beq_eq_false_iff_ne.mpr hx
  rcases l with _ | ⟨y, _ | ⟨z, t⟩⟩
  · simp at hl
  · simp at hl
  · simp [dropThroughFence, hb]

theorem dropThroughFence_append (lb lc : List Char)
    (hb : lb.contains backtick = false) :
    dropThroughFence (lb ++ backtick :: backtick :: backtick :: lc) = some lc := by
  induction lb with
  | nil => simp [dropThroughFence]
  | cons x t ih =>
    simp only [List.contains_cons, Bool.or_eq_false_iff, beq_eq_false_iff_ne] at hb
    rw [List.cons_append, dropThroughFence_cons_ne x _ (Ne.symm hb.1) (by simp; omega)]
    exact ih (by simpa using hb.2)

theorem stripFencesFuel_no_backtick (fuel : Nat) (l : List Char)
    (h : l.contains backtick = false) :
    stripFencesFuel fuel l = l := by
  induction fuel generalizing l with
  | zero => rfl
  | succ f ih =>
    cases l with
    | nil => rfl
    | cons x t =>
      simp only [List.contains_cons, Bool.or_eq_false_iff, beq_eq_false_iff_ne] at h
      rw [stripFencesFuel_cons_ne f x t (Ne.symm h.1), ih t (by simpa using h.2)]

theorem stripFencesFuel_block (la lb lc : List Char) (fuel : Nat)
    (hfuel : (la ++ backtick :: backtick :: backtick ::
      (lb ++ backtick :: backtick :: backtick :: lc)).length ≤ fuel)
    (ha : la.contains backtick = false) (hb : lb.contains backtick = false)
    (hc : lc.contains backtick = false) :
    stripFencesFuel fuel (la ++ backtick :: backtick :: backtick ::
      (lb ++ backtick :: backtick :: backtick :: lc)) = la ++ lc := by
  induction la generalizing fuel with
  | nil =>
    obtain ⟨f, rfl⟩ : ∃ f, fuel = f + 1 := by
      cases fuel
      · simp at hfuel
      · exact ⟨_, rfl⟩
    simp only [List.nil_append]
    rw [show stripFencesFuel (f + 1) (backtick :: backtick :: backtick ::
          (lb ++ backtick :: backtick :: backtick :: lc)) =
        match dropThroughFence (lb ++ backtick :: backtick :: backtick :: lc) with
        | some rem => stripFencesFuel f rem
        | none => backtick :: backtick :: backtick ::
            (lb ++ backtick :: backtick :: backtick :: lc) by
      simp [stripFencesFuel]]
    rw [dropThroughFence_append lb lc hb]
    exact stripFencesFuel_no_backtick f lc hc
  | cons x t ih =>
    obtain ⟨f, rfl⟩ : ∃ f, fuel = f + 1 := by
      cases fuel
      · simp at hfuel
      · exact ⟨_, rfl⟩
    simp only [List.contains_cons, Bool.or_eq_false_iff, beq_eq_false_iff_ne] at ha
    rw [List.cons_append, stripFencesFuel_cons_ne f x _ (Ne.symm ha.1),
      ih f (by simp at hfuel ⊢; omega) (by simpa using ha.2)]
    rfl

theorem string_data_append (a b : String) : (a ++ b).data = a.data ++ b.data := by
  rcases a with ⟨la⟩
  rcases b with ⟨lb⟩
  rfl

/-- `callOpenAI` issues exactly one HTTP POST, whether or not the fetch
succeeds. -/
theorem callOpenAI_calls (env : ApiEnv) (request : ApiRequest) (model : AIModel) :
    (callOpenAI env request model).2 =
      [.openai (jsStrOr request.endpoint model.defaultEndpoint)
        { model := model.id,
          messages := request.messages.getD
            ((match request.systemPrompt with
              | some sp => [{ role := "system", content := sp }]
              | none => []) ++ [{ role := "user", content := request.prompt }]),
          max_tokens := request.maxTokens, temperature := request.temperature }] := by
  rcases hsp : request.systemPrompt with _ | sp <;>
    simp only [callOpenAI, hsp] <;> split <;> rfl

/-- Claim C5: every pending-request-map entry is removed when its request
settles — whatever branch the timer body takes (rate limit, content gate,
cancellation, thrown exception, error response, or success), the state
after the body runs no longer maps the key, so a settled promise's entry
is gone.  (A promise settles only when its timer body runs; `resolve` is
called nowhere else.) -/
theorem fireStep_removes_pending (s : ProviderState) (c : ScheduledCall) (fe : FireEnv) :
    (fireStep s c fe).2.pending = mapErase s.pending c.key ∧
    mapGet (fireStep s c fe).2.pending c.key = none := by
  have h1 : (fireStep s c fe).2.pending = mapErase s.pending c.key := by
    unfold fireStep
    dsimp only
    repeat' split
    all_goals rfl
  exact ⟨h1, by rw [h1]; exact mapGet_mapErase_self _ _⟩

/-- Claim C7: when the buffer from the start of the document to the
cursor holds more `/*` than `*/` occurrences, `isInComment` is true and
`provideInlineCompletionItems` returns the empty item list immediately —
regardless of state, so nothing is scheduled and no network call can
result from the request. -/
theorem isInComment_suppresses (d : TextDocument) (p : Position)
    (h : countPair '*' '/' (textUpTo d p).data < countPair '/' '*' (textUpTo d p).data) :
    isInComment d p = true ∧
    ∀ (s : ProviderState) (selInfo : Bool) (now : Nat),
      requestStep s d p selInfo now = (.immediate [], s) := by
  have hc : isInComment d p = true := by
    unfold isInComment
    exact decide_eq_true h
  refine ⟨hc, fun s selInfo now => ?_⟩
  by_cases he : s.enabled
  · have hskip : shouldSkipCompletion d p selInfo = true := by
      simp [shouldSkipCompletion, hc]
    simp [requestStep, he, hskip]
  · simp [requestStep, he]

/-- Claim C7 witness: a concrete document whose buffer up to the cursor
is `"/* hello\nwor"` (one unmatched `/*`). -/
theorem isInComment_suppresses_witness :
    isInComment docComment posComment = true ∧
    requestStep initState docComment posComment false 0 = (.immediate [], initState) := by
  have h : countPair '*' '/' (textUpTo docComment posComment).data <
      countPair '/' '*' (textUpTo docComment posComment).data := by decide
  exact ⟨(isInComment_suppresses docComment posComment h).1,
    (isInComment_suppresses docComment posComment h).2 initState false 0⟩

/-- Claim C4: `callModel` is a total function into `ApiResponse` (it never
throws), and every failure path sets the `error` field: an unknown model
id yields exactly `error = "Invalid model ID"` with no HTTP call; a
missing secret yields `error = "No API key found"` with no HTTP call; and
an exception thrown inside the provider dispatch (network failure or
non-2xx status) is caught and surfaced as `error = e`. -/
theorem callModel_failure_paths (env : ApiEnv) (modelId prompt : String)
    (options : CallOptions) :
    (getModelById modelId = none →
      callModel env modelId prompt options =
        ({ text := "Error: Invalid model ID", model := modelId,
           usage := none, error := some "Invalid model ID" }, [])) ∧
    (∀ model, getModelById modelId = some model →
      env.secrets model.secretKeyName = none →
      callModel env modelId prompt options =
        ({ text := "Error: No API key found for " ++ model.name ++
                   ". Please set your API key in the extension settings.",
           model := model.id, usage := none, error := some "No API key found" }, [])) ∧
    (∀ model apiKey e calls, getModelById modelId = some model →
      env.secrets model.secretKeyName = some apiKey →
      dispatchProvider env (mkApiRequest env model prompt options apiKey) model =
        (.error e, calls) →
      callModel env modelId prompt options =
        ({ text := "Error: " ++ e, model := model.id,
           usage := none, error := some e }, calls)) := by
  refine ⟨fun h => ?_, fun model h1 h2 => ?_, fun model apiKey e calls h1 h2 h3 => ?_⟩
  · simp [callModel, h]
  · simp [callModel, h1, h2]
  · simp [callModel, h1, h2, h3]

/-- Claim C4 witness: concrete runs of all three failure paths — unknown
id (no HTTP call), missing Anthropic key (no HTTP call), and an OpenAI
oracle that throws `"boom"` (caught, surfaced in `error`). -/
theorem callModel_failure_paths_witness :
    callModel apiEnvThrow "no-such-model" "p" {} =
      ({ text := "Error: Invalid model ID", model := "no-such-model",
         usage := none, error := some "Invalid model ID" }, []) ∧
    callModel apiEnvThrow "claude-3-opus" "p" {} =
      ({ text := "Error: No API key found for Claude 3 Opus" ++
                 ". Please set your API key in the extension settings.",
         model := "claude-3-opus", usage := none, error := some "No API key found" }, []) ∧
    callModel apiEnvThrow "gpt-4" "p" {} =
      ({ text := "Error: boom", model := "gpt-4",
         usage := none, error := some "boom" },
       [.openai "https://api.openai.com/v1/chat/completions"
         { model := "gpt-4", messages := [{ role := "user", content := "p" }],
           max_tokens := 1024, temperature := 0.7 }]) := by
  refine ⟨?_, ?_, ?_⟩
  · exact (callModel_failure_paths apiEnvThrow "no-such-model" "p" {}).1 (by decide)
  · have := (callModel_failure_paths apiEnvThrow "claude-3-opus" "p" {}).2.1
      { name := "Claude 3 Opus", id := "claude-3-opus", provider := "Anthropic",
        maxTokens := 4000, description := "Anthropic Claude 3 Opus - Most capable Claude model",
        secretKeyName := "anthropicApiKey",
        defaultEndpoint := "https://api.anthropic.com/v1/messages" }
      (by decide) (by decide)
    simpa using this
  · have := (callModel_failure_paths apiEnvThrow "gpt-4" "p" {}).2.2
      { name := "GPT-4", id := "gpt-4", provider := "OpenAI",
        maxTokens := 4000, description := "OpenAI GPT-4 - Advanced reasoning capabilities",
        secretKeyName := "openaiApiKey",
        defaultEndpoint := "https://api.openai.com/v1/chat/completions" }
      "sk-test" "boom"
      [.openai "https://api.openai.com/v1/chat/completions"
        { model := "gpt-4", messages := [{ role := "user", content := "p" }],
          max_tokens := 1024, temperature := 0.7 }]
      (by decide) (by decide) (by rfl)
    simpa using this

/-- Claim C10: an explicitly passed `temperature: 0` (or `maxTokens: 0`)
is indistinguishable from not passing the option at all, because the
`||`-defaulting treats `0` as falsy: the whole `callModel` run is
identical, the effective temperature is the configured value or `0.7`
(itself `||`-defaulted), the effective `maxTokens` is the configured
value or `1024`, and neither effective value can ever be `0`. -/
theorem callModel_zero_option_defaulted (env : ApiEnv) (modelId prompt : String)
    (o : CallOptions) (model : AIModel) (apiKey : String) :
    callModel env modelId prompt { o with temperature := some 0 } =
      callModel env modelId prompt { o with temperature := none } ∧
    callModel env modelId prompt { o with maxTokens := some 0 } =
      callModel env modelId prompt { o with maxTokens := none } ∧
    (mkApiRequest env model prompt { o with temperature := some 0 } apiKey).temperature =
      jsOrQ env.configTemperature 0.7 ∧
    (mkApiRequest env model prompt { o with temperature := some 0 } apiKey).temperature ≠ 0 ∧
    (mkApiRequest env model prompt { o with maxTokens := some 0 } apiKey).maxTokens =
      jsOrNat env.configMaxTokens 1024 ∧
    (mkApiRequest env model prompt { o with maxTokens := some 0 } apiKey).maxTokens ≠ 0 := by
  have hq : ∀ x : Option ℚ, jsOrQ x 0.7 ≠ 0 := by
    intro x
    cases x with
    | none => norm_num [jsOrQ]
    | some t =>
      by_cases ht : t = 0
      · norm_num [jsOrQ, ht]
      · simp [jsOrQ, ht]
  have hn : ∀ x : Option Nat, jsOrNat x 1024 ≠ 0 := by
    intro x
    cases x with
    | none => simp [jsOrNat]
    | some t =>
      by_cases ht : t = 0 <;> simp [jsOrNat, ht]
  have hreqT : ∀ (m : AIModel) (k : String),
      mkApiRequest env m prompt { o with temperature := some 0 } k =
      mkApiRequest env m prompt { o with temperature := none } k := by
    intro m k
    simp [mkApiRequest, jsOrQ]
  have hreqM : ∀ (m : AIModel) (k : String),
      mkApiRequest env m prompt { o with maxTokens := some 0 } k =
      mkApiRequest env m prompt { o with maxTokens := none } k := by
    intro m k
    simp [mkApiRequest, jsOrNat]
  refine ⟨?_, ?_, by simp [mkApiRequest, jsOrQ], by simp [mkApiRequest, jsOrQ]; exact hq _,
    by simp [mkApiRequest, jsOrNat], by simp [mkApiRequest, jsOrNat]; exact hn _⟩
  · cases hm : getModelById modelId with
    | none => simp [callModel, hm]
    | some m =>
      cases hs : env.secrets m.secretKeyName with
      | none => simp [callModel, hm, hs]
      | some k => simp [callModel, hm, hs, hreqT]
  · cases hm : getModelById modelId with
    | none => simp [callModel, hm]
    | some m =>
      cases hs : env.secrets m.secretKeyName with
      | none => simp [callModel, hm, hs]
      | some k => simp [callModel, hm, hs, hreqM]

/-- Claim C1: when a request arrives for a key whose promise is already
pending (and the request is not answered by the skip conditions or a
fresh cache entry), `provideInlineCompletionItems` returns the stored
promise itself and changes nothing — no new timer is scheduled, so the
two callers share one promise and exactly one underlying network call.
The first conjuncts show the first call creates the promise, stores it
in the pending map and schedules the single timer; the last shows the
second call returns that same promise id with the state unchanged. -/
theorem requestStep_dedupes (s : ProviderState) (doc : TextDocument) (pos : Position)
    (selInfo : Bool) (now now' : Nat)
    (hen : s.enabled = true)
    (hskip : shouldSkipCompletion doc pos selInfo = false)
    (hcache : cacheHit s.cache (completionKey doc pos) now = none)
    (hcache' : cacheHit s.cache (completionKey doc pos) now' = none)
    (hpend : mapGet s.pending (completionKey doc pos) = none) :
    (requestStep s doc pos selInfo now).1 = .promise s.nextPromiseId ∧
    mapGet (requestStep s doc pos selInfo now).2.pending (completionKey doc pos) =
      some s.nextPromiseId ∧
    (requestStep s doc pos selInfo now).2.scheduled =
      some { key := completionKey doc pos, promiseId := s.nextPromiseId,
             doc := doc, pos := pos } ∧
    (requestStep s doc pos selInfo now).2.cache = s.cache ∧
    requestStep (requestStep s doc pos selInfo now).2 doc pos selInfo now' =
      (.promise s.nextPromiseId, (requestStep s doc pos selInfo now).2) := by
  have h1 : requestStep s doc pos selInfo now =
      (.promise s.nextPromiseId,
        { s with
          pending := mapSet s.pending (completionKey doc pos) s.nextPromiseId,
          scheduled := some { key := completionKey doc pos, promiseId := s.nextPromiseId,
                              doc := doc, pos := pos },
          nextPromiseId := s.nextPromiseId + 1 }) := by
    simp [requestStep, hen, hskip, hcache, hpend]
  refine ⟨by rw [h1], by rw [h1]; exact mapGet_mapSet_self _ _ _,
    by rw [h1], by rw [h1], ?_⟩
  rw [h1]
  simp [requestStep, hen, hskip, hcache', mapGet_mapSet_self]

/-- Claim C1 witness: on a fresh state, a first request for the key of
`docFn`/`posFn` yields promise 0, and a second request for the same key
100ms later returns the very same promise id without touching the state. -/
theorem requestStep_dedupes_witness :
    (requestStep initState docFn posFn false 5000).1 = .promise 0 ∧
    requestStep (requestStep initState docFn posFn false 5000).2 docFn posFn false 5100 =
      (.promise 0, (requestStep initState docFn posFn false 5000).2) := by
  have h := requestStep_dedupes initState docFn posFn false 5000 5100
    (by rfl) (by decide) (by rfl) (by rfl) (by rfl)
  exact ⟨h.1, h.2.2.2.2⟩

/-- Claim C2: when a timer execution succeeds (rate gate passed, enough
content, not cancelled, response without error and with non-empty text),
the post-processed result is cached under the request key with expiry
`now + 30000`, and any later call to `provideInlineCompletionItems` for
the same key strictly before that expiry returns exactly the cached item
list with the state unchanged — an immediate answer, no new timer and no
network call. -/
theorem fire_success_caches_then_serves (s : ProviderState) (c : ScheduledCall)
    (fe : FireEnv) (r : ApiResponse)
    (hen : s.enabled = true)
    (hkey : c.key = completionKey c.doc c.pos)
    (hrate : ¬(fe.now - s.lastCompletionTime < 1000))
    (hgate : ¬((getSmartCompletionContext c.doc c.pos c.doc.languageId).currentLine.length < 10 ∧
      (getSmartCompletionContext c.doc c.pos c.doc.languageId).prefixCode.length < 20))
    (hcancel : fe.cancelRequested = false)
    (hresp : fe.response = .ok r)
    (herr : r.error = none) (htext : ¬(r.text = ""))
    (hskip : shouldSkipCompletion c.doc c.pos false = false) :
    (fireStep s c fe).1 =
      { value := [{ insertText := postProcessCompletion (jsTrim r.text) c.doc.languageId
                      (getSmartCompletionContext c.doc c.pos c.doc.languageId).currentLine,
                    rangeStart := c.pos, rangeEnd := c.pos }],
        networkCalled := true } ∧
    mapGet (fireStep s c fe).2.cache c.key =
      some { expiresAt := fe.now + 30000, items := (fireStep s c fe).1.value } ∧
    ∀ now', now' < fe.now + 30000 →
      requestStep (fireStep s c fe).2 c.doc c.pos false now' =
        (.immediate (fireStep s c fe).1.value, (fireStep s c fe).2) := by
  have hfs : fireStep s c fe =
      ({ value := [{ insertText := postProcessCompletion (jsTrim r.text) c.doc.languageId
                       (getSmartCompletionContext c.doc c.pos c.doc.languageId).currentLine,
                     rangeStart := c.pos, rangeEnd := c.pos }],
         networkCalled := true },
       { s with lastCompletionTime := fe.now, scheduled := none,
                pending := mapErase s.pending c.key,
                cache := mapSet s.cache c.key
                  { expiresAt := fe.now + 30000,
                    items := [{ insertText := postProcessCompletion (jsTrim r.text)
                                  c.doc.languageId
                                  (getSmartCompletionContext c.doc c.pos
                                    c.doc.languageId).currentLine,
                                rangeStart := c.pos, rangeEnd := c.pos }] } }) := by
    simp [fireStep, hrate, hgate, hcancel, hresp, herr, htext]
  refine ⟨by rw [hfs], by rw [hfs]; exact mapGet_mapSet_self _ _ _, ?_⟩
  intro now' hn
  rw [hfs]
  simp [requestStep, hen, hskip, cacheHit, ← hkey, mapGet_mapSet_self, hn]

/-- Claim C2 witness: a successful timer execution at t = 2000ms caches
`[{"return 1;"}]` for the key of `docFn`/`posFn`, and a request at
t = 20000ms (within the 30s time-to-live) is answered immediately from
the cache with the identical list. -/
theorem fire_success_caches_then_serves_witness :
    mapGet (fireStep stateFn schedFn fireOk).2.cache schedFn.key =
      some { expiresAt := 32000, items := (fireStep stateFn schedFn fireOk).1.value } ∧
    requestStep (fireStep stateFn schedFn fireOk).2 docFn posFn false 20000 =
      (.immediate (fireStep stateFn schedFn fireOk).1.value,
        (fireStep stateFn schedFn fireOk).2) := by
  have h := fire_success_caches_then_serves stateFn schedFn fireOk
    { text := "return 1;", model := "gpt-4" }
    (by rfl) (by rfl) (by decide) (by decide) (by rfl) (by rfl) (by rfl) (by decide)
    (by decide)
  exact ⟨h.2.1, h.2.2 20000 (by decide)⟩

/-- Claim C3 counterexample: the claim says *every* request arriving
less than 1 second after the previous completed network call resolves to
an empty suggestion list.  Here a network call runs and completes at
t = 2000ms (`networkCalled = true`, `lastCompletionTime = 2000`), and a
request for the same key arrives 500ms later — yet it resolves to the
*non-empty* cached suggestion list, because the cache lookup precedes the
rate limiter. -/
theorem rate_limit_claim_counterexample :
    (fireStep stateFn schedFn fireOk).1.networkCalled = true ∧
    (fireStep stateFn schedFn fireOk).2.lastCompletionTime = 2000 ∧
    2500 - 2000 < 1000 ∧
    (requestStep (fireStep stateFn schedFn fireOk).2 docFn posFn false 2500).1 =
      .immediate (fireStep stateFn schedFn fireOk).1.value ∧
    (fireStep stateFn schedFn fireOk).1.value ≠ [] := by
  refine ⟨by decide, by decide, by decide, by decide, by decide⟩

/-- Claim C3 amended: the rate limiter applies to requests that reach the
debounced network stage (those not answered from the cache or an
in-flight promise): a timer execution running less than 1 second after
`lastCompletionTime` resolves its promise to the empty list, contacts no
network, and leaves `lastCompletionTime` unchanged; and every execution
that does reach the network records its call time in
`lastCompletionTime` (call issue and completion coincide in this model). -/
theorem fireStep_rate_limited (s : ProviderState) (c : ScheduledCall) (fe : FireEnv)
    (h : fe.now - s.lastCompletionTime < 1000) :
    fireStep s c fe =
      ({ value := [], networkCalled := false },
        { s with pending := mapErase s.pending c.key, scheduled := none }) ∧
    ∀ (s' : ProviderState) (c' : ScheduledCall) (fe' : FireEnv),
      (fireStep s' c' fe').1.networkCalled = true →
      (fireStep s' c' fe').2.lastCompletionTime = fe'.now := by
  constructor
  · simp [fireStep, h]
  · intro s' c' fe' hx
    by_cases h1 : fe'.now - s'.lastCompletionTime < 1000
    · simp [fireStep, h1] at hx
    · by_cases h2 : ((getSmartCompletionContext c'.doc c'.pos c'.doc.languageId).currentLine.length < 10 ∧
        (getSmartCompletionContext c'.doc c'.pos c'.doc.languageId).prefixCode.length < 20)
      · simp [fireStep, h1, h2] at hx
      · by_cases h3 : fe'.cancelRequested = true
        · simp [fireStep, h1, h2, h3] at hx
        · cases hr : fe'.response with
          | error e => simp [fireStep, h1, h2, h3, hr]
          | ok r =>
            by_cases h4 : (r.error.isSome = true ∨ r.text = "")
            · simp [fireStep, h1, h2, h3, hr, h4]
            · simp [fireStep, h1, h2, h3, hr, h4]

/-- Claim C3 amended witness: a timer execution at t = 1500ms, 500ms
after the last rate-gate pass, resolves empty without any network call
and only erases its pending entry. -/
theorem fireStep_rate_limited_witness :
    fireSoon.now - stateFn.lastCompletionTime < 1000 ∧
    fireStep stateFn schedFn fireSoon =
      ({ value := [], networkCalled := false },
        { stateFn with
          pending := mapErase stateFn.pending schedFn.key,
          scheduled := none }) :=
  ⟨by decide, (fireStep_rate_limited stateFn schedFn fireSoon (by decide)).1⟩

/-- Claim C8: over the real-number idealisation of JS floats, cosine
similarity of any vector with itself is exactly 1 when its norm-square is
non-zero; it is 0 for vectors with zero dot product (orthogonal); and for
a zero-norm input the divisor `sqrt(normA) * sqrt(normB)` is 0 — the
computation divides by zero, since `cosineSimilarity` divides by
`cosineDenominator` unconditionally (no guard exists in the source). -/
theorem cosineSimilarity_spec :
    (∀ v : List ℝ, normSqFirst v ≠ 0 → cosineSimilarity v v = 1) ∧
    (∀ a b : List ℝ, a.length = b.length → dotProduct a b = 0 →
      normSqFirst a ≠ 0 → normSqSecond a b ≠ 0 → cosineSimilarity a b = 0) ∧
    (∀ a b : List ℝ, normSqFirst a = 0 ∨ normSqSecond a b = 0 →
      cosineDenominator a b = 0) := by
  refine ⟨fun v hv => ?_, fun a b _ hd _ _ => ?_, fun a b h => ?_⟩
  · have hdot : dotProduct v v = normSqFirst v := rfl
    have hsec : normSqSecond v v = normSqFirst v := rfl
    have hnn : 0 ≤ normSqFirst v := by
      unfold normSqFirst
      exact Finset.sum_nonneg fun i _ => mul_self_nonneg _
    unfold cosineSimilarity cosineDenominator
    rw [hdot, hsec, Real.mul_self_sqrt hnn, div_self hv]
  · unfold cosineSimilarity
    rw [hd, zero_div]
  · unfold cosineDenominator
    rcases h with h | h <;> rw [h, Real.sqrt_zero]
    · exact zero_mul _
    · exact mul_zero _

/-- Claim C8 witness: `[1,2]` with itself gives exactly 1; the orthogonal
pair `[1,0]`, `[0,1]` gives 0; and the zero vector `[0,0]` makes the
divisor 0. -/
theorem cosineSimilarity_spec_witness :
    normSqFirst [(1 : ℝ), 2] ≠ 0 ∧
    cosineSimilarity [(1 : ℝ), 2] [(1 : ℝ), 2] = 1 ∧
    dotProduct [(1 : ℝ), 0] [(0 : ℝ), 1] = 0 ∧
    cosineSimilarity [(1 : ℝ), 0] [(0 : ℝ), 1] = 0 ∧
    normSqFirst [(0 : ℝ), 0] = 0 ∧
    cosineDenominator [(0 : ℝ), 0] [(1 : ℝ), 1] = 0 := by
  have h1 : normSqFirst [(1 : ℝ), 2] = 5 := by
    norm_num [normSqFirst, Finset.sum_range_succ, List.getD]
  have h1' : normSqFirst [(1 : ℝ), 2] ≠ 0 := by rw [h1]; norm_num
  have h2 : dotProduct [(1 : ℝ), 0] [(0 : ℝ), 1] = 0 := by
    norm_num [dotProduct, Finset.sum_range_succ, List.getD]
  have h3 : normSqFirst [(1 : ℝ), 0] ≠ 0 := by
    norm_num [normSqFirst, Finset.sum_range_succ, List.getD]
  have h4 : normSqSecond [(1 : ℝ), 0] [(0 : ℝ), 1] ≠ 0 := by
    norm_num [normSqSecond, Finset.sum_range_succ, List.getD]
  have h5 : normSqFirst [(0 : ℝ), 0] = 0 := by
    norm_num [normSqFirst, Finset.sum_range_succ, List.getD]
  exact ⟨h1', cosineSimilarity_spec.1 _ h1', h2,
    cosineSimilarity_spec.2.1 _ _ rfl h2 h3 h4, h5,
    cosineSimilarity_spec.2.2 _ _ (Or.inl h5)⟩

/-- Claim C6 counterexample: the claim says the fence step *strips the
code-fence wrapping* (keeping the wrapped content) and *re-indents*
continuation lines *to* the current line's indentation.  The code's
`replace(/```[\s\S]*?```/g, '')` deletes each fenced block together with
its content, and the indentation step *prepends* the indent instead of
replacing the line's own: for the fully fenced text the code returns `""`
where the described behaviour returns `"foo"`, and for `"a\n  b"` with
current line `"  foo;"` the code returns `"a\n    b"` where the described
behaviour returns `"a\n  b"`. -/
theorem postProcess_fence_counterexample :
    postProcessCompletion "```\nfoo\n```" "typescript" "y;" = "" ∧
    postProcessCompletionSpecDescribed "```\nfoo\n```" "typescript" "y;" = "foo" ∧
    postProcessCompletion "a\n  b" "typescript" "  foo;" = "a\n    b" ∧
    postProcessCompletionSpecDescribed "a\n  b" "typescript" "  foo;" = "a\n  b" ∧
    postProcessCompletion "```\nfoo\n```" "typescript" "y;" ≠
      postProcessCompletionSpecDescribed "```\nfoo\n```" "typescript" "y;" ∧
    postProcessCompletion "a\n  b" "typescript" "  foo;" ≠
      postProcessCompletionSpecDescribed "a\n  b" "typescript" "  foo;" := by
  refine ⟨by decide, by decide, by decide, by decide, by decide, by decide⟩

/-- Claim C6 amended: `postProcessCompletion` deletes every markdown
code-fence block — the ``` fences *together with the text they enclose* —
and trims the result (a fence with no later closing fence is left in
place); for multi-line text it *prepends* the current line's leading
whitespace to every line after the first; and when the trimmed current
line ends with an opening bracket/brace/paren and the trimmed text starts
with one, it drops the text's first character — in particular, for
current line `"  foo("` and model text `"(bar)"` the result is `"bar)"`. -/
theorem postProcessCompletion_amended :
    postProcessCompletion "(bar)" "typescript" "  foo(" = "bar)" ∧
    (∀ a b c : String, a.data.contains backtick = false →
      b.data.contains backtick = false → c.data.contains backtick = false →
      stripFences (a ++ "```" ++ b ++ "```" ++ c) = a ++ c) ∧
    (∀ text line lang : String, text.data.contains backtick = false →
      jsTrim text = text → text.data.contains '\n' = false →
      endsWithOpenBracket (jsTrim line) = true → startsWithOpenBracket text = true →
      postProcessCompletion text lang line = jsDrop text 1) ∧
    postProcessCompletion "a\n  b" "typescript" "  foo;" = "a\n    b" := by
  refine ⟨by decide, fun a b c ha hb hc => ?_, fun text line lang hbt htrim hnl he hs => ?_,
    by decide⟩
  · have h3 : ("```" : String).data = [backtick, backtick, backtick] := by decide
    have hdata : (a ++ "```" ++ b ++ "```" ++ c).data =
        a.data ++ backtick :: backtick :: backtick ::
          (b.data ++ backtick :: backtick :: backtick :: c.data) := by
      rw [string_data_append, string_data_append, string_data_append, string_data_append, h3]
      simp [List.append_assoc]
    unfold stripFences
    rw [hdata, stripFencesFuel_block _ _ _ _ (Nat.le_refl _) ha hb hc, ← string_data_append]
  · have h1 : stripFences text = text := by
      unfold stripFences
      rw [stripFencesFuel_no_backtick _ _ hbt]
    have hnl' : ¬('\n' ∈ text.data) := by simpa using hnl
    simp [postProcessCompletion, h1, htrim, hnl', he, hs]

/-- Claim C6 amended witness: a concrete fenced block (content included)
is deleted, and the duplicate-bracket clause fires on the claim's own
example. -/
theorem postProcessCompletion_amended_witness :
    stripFences ("x " ++ "```" ++ "a" ++ "```" ++ " y") = "x " ++ " y" ∧
    postProcessCompletion "(bar)" "typescript" "  foo(" = jsDrop "(bar)" 1 := by
  exact ⟨postProcessCompletion_amended.2.1 "x " "a" " y" (by decide) (by decide) (by decide),
    postProcessCompletion_amended.2.2.1 "(bar)" "  foo(" "typescript"
      (by decide) (by decide) (by decide) (by decide) (by decide)⟩

/-- Claim C9 counterexample: after a clear, sending `"hi"` with the
default model (`gpt-4`, OpenAI) produces a wire body whose message list
is `[{user, "hi"}]` only — `callOpenAI` uses the explicitly passed
message list and then never includes the system prompt in the OpenAI
body, so the request does *not* contain "the new user message plus the
system prompt" as the claim states. -/
theorem chat_system_prompt_counterexample :
    clearChat [{ role := "user", content := "old" }] = [] ∧
    (sendMessageCall (clearChat [{ role := "user", content := "old" }]) "hi" none none).1 =
      [{ role := "user", content := "hi" }] ∧
    (callModel apiEnvOk (sendMessageCall [] "hi" none none).2.1 "hi"
        (sendMessageCall [] "hi" none none).2.2).2 =
      [.openai "https://api.openai.com/v1/chat/completions"
        { model := "gpt-4", messages := [{ role := "user", content := "hi" }],
          max_tokens := 1000, temperature := 0.7 }] ∧
    specFirstChatMessages chatBaseSystemPrompt "hi" =
      [{ role := "system", content := chatBaseSystemPrompt },
       { role := "user", content := "hi" }] ∧
    ([{ role := "user", content := "hi" }] : List ChatMessage) ≠
      specFirstChatMessages chatBaseSystemPrompt "hi" := by
  refine ⟨rfl, by decide, by rfl, rfl, by decide⟩

/-- Claim C9 amended: clearing the chat history resets the in-memory
sequence to `[]`; the first message sent after a clear pushes exactly one
user turn, and the resulting OpenAI request body carries only that new
user message — the system prompt passed in the options is omitted from
the OpenAI body whenever an explicit message list is supplied. -/
theorem chat_clear_then_first_send (env : ApiEnv) (m : String) (ws : Option String)
    (apiKey : String) (h : env.secrets "openaiApiKey" = some apiKey) :
    (∀ hist : List ChatMessage, clearChat hist = []) ∧
    (sendMessageCall [] m none ws).1 = [{ role := "user", content := m }] ∧
    (callModel env (sendMessageCall [] m none ws).2.1 m
        (sendMessageCall [] m none ws).2.2).2 =
      [.openai "https://api.openai.com/v1/chat/completions"
        { model := "gpt-4", messages := [{ role := "user", content := m }],
          max_tokens := 1000, temperature := jsOrQ env.configTemperature 0.7 }] := by
  refine ⟨fun _ => rfl, by simp [sendMessageCall], ?_⟩
  have hmod : (sendMessageCall [] m none ws).2.1 = "gpt-4" := rfl
  rw [hmod]
  have hgm : getModelById "gpt-4" =
      some { name := "GPT-4", id := "gpt-4", provider := "OpenAI", maxTokens := 4000,
             description := "OpenAI GPT-4 - Advanced reasoning capabilities",
             secretKeyName := "openaiApiKey",
             defaultEndpoint := "https://api.openai.com/v1/chat/completions" } := by decide
  simp only [callModel, hgm, h]
  have hdp : ∀ (req : ApiRequest),
      dispatchProvider env req
        { name := "GPT-4", id := "gpt-4", provider := "OpenAI", maxTokens := 4000,
          description := "OpenAI GPT-4 - Advanced reasoning capabilities",
          secretKeyName := "openaiApiKey",
          defaultEndpoint := "https://api.openai.com/v1/chat/completions" } =
      callOpenAI env req
        { name := "GPT-4", id := "gpt-4", provider := "OpenAI", maxTokens := 4000,
          description := "OpenAI GPT-4 - Advanced reasoning capabilities",
          secretKeyName := "openaiApiKey",
          defaultEndpoint := "https://api.openai.com/v1/chat/completions" } := by
    intro req
    simp [dispatchProvider]
  rw [hdp]
  rcases hco : callOpenAI env
      (mkApiRequest env
        { name := "GPT-4", id := "gpt-4", provider := "OpenAI", maxTokens := 4000,
          description := "OpenAI GPT-4 - Advanced reasoning capabilities",
          secretKeyName := "openaiApiKey",
          defaultEndpoint := "https://api.openai.com/v1/chat/completions" }
        m (sendMessageCall [] m none ws).2.2 apiKey)
      { name := "GPT-4", id := "gpt-4", provider := "OpenAI", maxTokens := 4000,
        description := "OpenAI GPT-4 - Advanced reasoning capabilities",
        secretKeyName := "openaiApiKey",
        defaultEndpoint := "https://api.openai.com/v1/chat/completions" }
    with ⟨res, calls⟩
  have hcalls := callOpenAI_calls env
    (mkApiRequest env
      { name := "GPT-4", id := "gpt-4", provider := "OpenAI", maxTokens := 4000,
        description := "OpenAI GPT-4 - Advanced reasoning capabilities",
        secretKeyName := "openaiApiKey",
        defaultEndpoint := "https://api.openai.com/v1/chat/completions" }
      m (sendMessageCall [] m none ws).2.2 apiKey)
    { name := "GPT-4", id := "gpt-4", provider := "OpenAI", maxTokens := 4000,
      description := "OpenAI GPT-4 - Advanced reasoning capabilities",
      secretKeyName := "openaiApiKey",
      defaultEndpoint := "https://api.openai.com/v1/chat/completions" }
  rw [hco] at hcalls
  cases res <;>
    simp_all [sendMessageCall, mkApiRequest, jsOrStr, jsStrOr, jsOrNat, jsOrQ]

/-- Claim C9 amended witness: the concrete environment `apiEnvOk` has an
OpenAI key, and the first post-clear send of `"hello"` issues one OpenAI
call whose body contains exactly the one user message. -/
theorem chat_clear_then_first_send_witness :
    apiEnvOk.secrets "openaiApiKey" = some "sk-chat" ∧
    (callModel apiEnvOk (sendMessageCall [] "hello" none none).2.1 "hello"
        (sendMessageCall [] "hello" none none).2.2).2 =
      [.openai "https://api.openai.com/v1/chat/completions"
        { model := "gpt-4", messages := [{ role := "user", content := "hello" }],
          max_tokens := 1000, temperature := jsOrQ apiEnvOk.configTemperature 0.7 }] := by
  exact ⟨rfl, (chat_clear_then_first_send apiEnvOk "hello" none "sk-chat" rfl).2.2⟩

end VSEXT
